import Mathlib

/-
Verification development for the tsunami alert pipeline of the
Disaster Response Management System repository.

The embedded code comes from two source files:
  * email_alert.py   — feed fetching, recipient loading, risk scoring,
    subject formatting, the per-cycle event loop and the scheduler loop;
  * tsunami_dashboard.py — the probability → discrete risk-tier mapping.

Numbers are modelled as rationals (every constant appearing in the source
is a decimal literal, exactly representable); Python dict lookups with
`.get(key, default)` become `Option` fields read with `Option.getD`;
fallible operations (HTTP requests, JSON decoding, the scoring model,
list indexing that can raise `IndexError`) are modelled with
`Option`/`Except` values.
-/

namespace EmailAlert

/-- The `properties` object of a GeoJSON feature, restricted to the keys
the embedded code reads.  A `none` field models an absent key, so that
`props.get(k, d)` becomes `Option.getD`.  -/
structure Props where
  mag : Option ℚ
  place : Option String
  time : Option ℚ
  tsunami : Option Int
  sig : Option ℚ
  gap : Option ℚ
  dmin : Option ℚ
  mmi : Option ℚ
deriving DecidableEq

/-- One GeoJSON feature: `earthquake['id']`, `earthquake['properties']`,
and `earthquake['geometry']['coordinates']` (a list `[lon, lat, depth]`
that may be shorter than 3). -/
structure Earthquake where
  id : String
  properties : Props
  coordinates : List ℚ
deriving DecidableEq

/-- The single-row feature table built by `prepare_prediction_data`
(email_alert.py lines 133-164) with the default feature list
`['magnitude', 'depth', 'latitude', 'longitude', 'sig', 'gap', 'dmin', 'mmi']`. -/
structure PredictionData where
  magnitude : ℚ
  depth : ℚ
  latitude : ℚ
  longitude : ℚ
  sig : ℚ
  gap : ℚ
  dmin : ℚ
  mmi : ℚ
deriving DecidableEq

/-- `prepare_prediction_data` (email_alert.py): every feature falls back
to 0 when absent; in particular `depth` is `coords[2] if len(coords) > 2 else 0`. -/
def prepare_prediction_data (eq : Earthquake) : PredictionData :=
  { magnitude := eq.properties.mag.getD 0
    depth := (eq.coordinates[2]?).getD 0
    latitude := (eq.coordinates[1]?).getD 0
    longitude := (eq.coordinates[0]?).getD 0
    sig := eq.properties.sig.getD 0
    gap := eq.properties.gap.getD 0
    dmin := eq.properties.dmin.getD 0
    mmi := eq.properties.mmi.getD 0 }

/-- Which branch of `predict_tsunami_risk` produced the returned
probability; it abstracts the human-readable reason string attached to
each `return` site of the Python function. -/
inductive Source
  | overrideOfficial
  | overrideMagnitude
  | model
  | heuristic
deriving DecidableEq

/-- The (probability, reason) pair returned by `predict_tsunami_risk`,
with the reason string abstracted to its branch tag. -/
structure Assessment where
  probability : ℚ
  source : Source
deriving DecidableEq

/-- The one uncaught exception `predict_tsunami_risk` can raise: the
`IndexError` from `earthquake['geometry']['coordinates'][2]` on line 189. -/
inductive ScoreError
  | indexError
deriving DecidableEq

/-- The guarded model branch of `predict_tsunami_risk` (lines 177-186):
the loaded scoring artifact is an opaque function that either returns a
probability or raises; a raise is caught and the branch yields nothing.
`none` covers both "no model loaded" and "model invocation errored". -/
def modelPath (model : Option (PredictionData → Except Unit ℚ))
    (eq : Earthquake) : Option ℚ :=
  match model with
  | none => none
  | some m =>
    match m (prepare_prediction_data eq) with
    | .ok p => some p
    | .error _ => none

/-- `predict_tsunami_risk` (email_alert.py lines 166-194).  Branches in
source order: official tsunami flag, magnitude ≥ 7.5 override, model
prediction, then the heuristic.  In the heuristic, Python evaluates
`magnitude >= 6.5 and coords[2] < 50` left to right, so `coords[2]`
(which can raise `IndexError`) is only read when `magnitude >= 6.5`. -/
def predict_tsunami_risk (model : Option (PredictionData → Except Unit ℚ))
    (eq : Earthquake) : Except ScoreError Assessment :=
  if eq.properties.tsunami = some 1 then
    .ok ⟨1, .overrideOfficial⟩
  else
    let magnitude := eq.properties.mag.getD 0
    if magnitude ≥ 7.5 then
      .ok ⟨0.9, .overrideMagnitude⟩
    else
      match modelPath model eq with
      | some probability => .ok ⟨probability, .model⟩
      | none =>
        if magnitude ≥ 6.5 then
          match eq.coordinates[2]? with
          | none => .error .indexError
          | some depth =>
            if depth < 50 then .ok ⟨0.7, .heuristic⟩
            else if magnitude ≥ 6 then .ok ⟨0.3, .heuristic⟩
            else .ok ⟨0.1, .heuristic⟩
        else if magnitude ≥ 6 then .ok ⟨0.3, .heuristic⟩
        else .ok ⟨0.1, .heuristic⟩

/-- The `risk_level` local of `format_email_subject`
(email_alert.py lines 201-205). -/
def subject_risk_level (probability : ℚ) : String :=
  if probability ≥ 0.7 then "HIGH"
  else if probability ≥ 0.4 then "MEDIUM"
  else "LOW"

/-- `format_email_subject` (email_alert.py lines 196-207). -/
def format_email_subject (eq : Earthquake) (probability : ℚ) : String :=
  let magnitude := eq.properties.mag.getD 0
  let place := eq.properties.place.getD "Unknown location"
  "TSUNAMI ALERT [" ++ subject_risk_level probability ++ "]: M" ++
    toString magnitude ++ " Earthquake near " ++ place

/-- `load_email_recipients` (email_alert.py lines 90-111).  The argument
models reading and JSON-decoding `emails.txt`: `.ok emails` is a
successful read, `.error` any exception (missing file, bad JSON, a
non-string element making `'@' in email` raise).  Python `'@' in email`
on strings is membership of the character in the string. -/
def load_email_recipients (file : Except Unit (List String)) : List String :=
  match file with
  | .ok emails => emails.filter (fun e => decide ('@' ∈ e.data) && decide ('.' ∈ e.data))
  | .error _ => ["speakup189@gmail.com", "ankity1892003@gmail.com"]

/-- A decoded feed document.  `features = none` models a payload that
decoded to JSON but has no `features` list, so that
`earthquake_data['features']` raises `KeyError`. -/
structure Feed where
  features : Option (List Earthquake)
deriving DecidableEq

/-- The outcome of one HTTP GET as `fetch_earthquake_data` observes it:
`.error` is a transport exception from `requests.get`; `.ok (status, payload)`
is a response, whose `.json()` call may itself raise (`payload = .error`). -/
structure FetchEnv where
  primary : Except Unit (Nat × Except Unit Feed)
  backup : Except Unit (Nat × Except Unit Feed)

/-- `fetch_earthquake_data` (email_alert.py lines 113-131).  The second
component records whether the backup request was issued.  The whole body
is wrapped in one `try`, so a transport error or a `.json()` error on
the primary jumps to `except` and returns `None` without contacting the
backup; only a non-200 primary status reaches the backup call. -/
def fetch_earthquake_data (env : FetchEnv) : Option Feed × Bool :=
  match env.primary with
  | .error _ => (none, false)
  | .ok (status, payload) =>
    if status = 200 then
      match payload with
      | .ok data => (some data, false)
      | .error _ => (none, false)
    else
      match env.backup with
      | .error _ => (none, true)
      | .ok (bstatus, bpayload) =>
        if bstatus = 200 then
          match bpayload with
          | .ok data => (some data, true)
          | .error _ => (none, true)
        else (none, true)

/-- What one earthquake contributes to a cycle
(the body of the per-event `try` in `process_earthquakes`, lines 394-419):
skipped by the 30-minute recency check, skipped below the 0.4 dispatch
gate, aborted by an exception from scoring (caught by the per-event
`except`), or formatted and dispatched. -/
inductive EventOutcome
  | skippedOld
  | skippedLowRisk
  | errored
  | dispatched (subject : String)
deriving DecidableEq

/-- One iteration of the event loop of `process_earthquakes`.
`now` is the wall-clock time in epoch seconds; the event time is
`properties.get('time', 0)` in epoch milliseconds, and the event is
skipped when `(now - event_time).total_seconds() > 1800`. -/
def eventStep (model : Option (PredictionData → Except Unit ℚ))
    (now : ℚ) (eq : Earthquake) : EventOutcome :=
  let time_ms := eq.properties.time.getD 0
  if now - time_ms / 1000 > 1800 then .skippedOld
  else
    match predict_tsunami_risk model eq with
    | .error _ => .errored
    | .ok a =>
      if a.probability ≥ 0.4 then .dispatched (format_email_subject eq a.probability)
      else .skippedLowRisk

/-- The external inputs consumed by one `process_earthquakes` call:
the value returned by `fetch_earthquake_data`, and the state of
`emails.txt` as read by `load_email_recipients`. -/
structure CycleInput where
  fetched : Option Feed
  recipientsFile : Except Unit (List String)

/-- How one `process_earthquakes` call ends: normal return carrying the
ids of the events for which an alert was formatted and dispatched, or an
uncaught exception escaping to `main`. -/
inductive CycleOutcome
  | completed (dispatched : List String)
  | exn
deriving DecidableEq

/-- `process_earthquakes` (email_alert.py lines 372-421).  A `None` fetch
result returns early; `earthquake_data['features']` raises when the key
is absent (before recipients are loaded); an empty recipient list
returns early; otherwise each event runs through `eventStep`, whose
per-event exceptions are caught in the loop. -/
def process_earthquakes (model : Option (PredictionData → Except Unit ℚ))
    (now : ℚ) (ci : CycleInput) : CycleOutcome :=
  match ci.fetched with
  | none => .completed []
  | some feed =>
    match feed.features with
    | none => .exn
    | some events =>
      let recipients := load_email_recipients ci.recipientsFile
      if recipients.isEmpty then .completed []
      else
        .completed (events.filterMap fun eq =>
          match eventStep model now eq with
          | .dispatched _ => some eq.id
          | _ => none)

/-- The scheduler loop of `main` (email_alert.py lines 438-447) run over
a finite prefix of cycle environments: `while True` calls
`process_earthquakes` each interval inside one `try`, so the first
exception escaping a cycle leaves the loop (`except Exception` path).
Returns the per-cycle dispatched ids of the completed cycles and whether
the loop was terminated by such an exception. -/
def runLoopDispatches (model : Option (PredictionData → Except Unit ℚ)) :
    List (ℚ × CycleInput) → List (List String) × Bool
  | [] => ([], false)
  | (now, ci) :: rest =>
    match process_earthquakes model now ci with
    | .exn => ([], true)
    | .completed ds =>
      let r := runLoopDispatches model rest
      (ds :: r.1, r.2)

end EmailAlert

namespace Dashboard

/-- The five risk tiers of the dashboard's `predict_tsunami_risk`
(tsunami_dashboard.py lines 341-352), abstracting the appended strings
"Very Low" … "Very High". -/
inductive Tier
  | veryLow
  | low
  | moderate
  | high
  | veryHigh
deriving DecidableEq

/-- Position of a tier in the display order, for stating monotonicity. -/
def tierRank : Tier → Nat
  | .veryLow => 0
  | .low => 1
  | .moderate => 2
  | .high => 3
  | .veryHigh => 4

/-- The probability → tier mapping applied to each model probability in
the dashboard's `predict_tsunami_risk` (tsunami_dashboard.py lines 342-352). -/
def risk_level_of (prob : ℚ) : Tier :=
  if prob < 0.2 then .veryLow
  else if prob < 0.4 then .low
  else if prob < 0.6 then .moderate
  else if prob < 0.8 then .high
  else .veryHigh

end Dashboard

namespace EmailAlert

/-- A concrete event carrying the official tsunami flag together with a
very high magnitude, used to instantiate the scoring theorems. -/
def evOfficial : Earthquake :=
  { id := "ev-official"
    properties :=
      { mag := some 8, place := none, time := some 0, tsunami := some 1
        sig := none, gap := none, dmin := none, mmi := none }
    coordinates := [100, 10, 5] }

/-- A concrete event without the official flag but with magnitude 8. -/
def evBigMag : Earthquake :=
  { id := "ev-mag"
    properties :=
      { mag := some 8, place := none, time := some 0, tsunami := none
        sig := none, gap := none, dmin := none, mmi := none }
    coordinates := [100, 10, 5] }

/-- A concrete event with magnitude 6.8 and a truncated coordinate list. -/
def evShortCoords : Earthquake :=
  { id := "ev-short"
    properties :=
      { mag := some 6.8, place := none, time := some 0, tsunami := none
        sig := none, gap := none, dmin := none, mmi := none }
    coordinates := [100, 10] }

/-- Claim C1: for every event whose official tsunami flag equals 1,
`predict_tsunami_risk` returns probability 1.0 with the official-override
source, whatever the model state and the magnitude — so this rule takes
precedence over the magnitude override and the model path. -/
theorem C1_official_override (model : Option (PredictionData → Except Unit ℚ))
    (eq : Earthquake) (h : eq.properties.tsunami = some 1) :
    predict_tsunami_risk model eq = .ok ⟨1, .overrideOfficial⟩ := by
  simp [predict_tsunami_risk, h]

/-- Witness for C1: the official flag wins over magnitude 8 and over a
loaded model that would return 0.5. -/
theorem C1_official_override_witness :
    evOfficial.properties.tsunami = some 1 ∧
    predict_tsunami_risk (some fun _ => .ok 0.5) evOfficial =
      .ok ⟨1, .overrideOfficial⟩ :=
  ⟨rfl, C1_official_override (some fun _ => .ok 0.5) evOfficial rfl⟩

/-- Claim C2: for every event whose official flag is not 1 and whose
magnitude is at least 7.5, `predict_tsunami_risk` returns probability 0.9
with the magnitude-override source, for every model state. -/
theorem C2_magnitude_override (model : Option (PredictionData → Except Unit ℚ))
    (eq : Earthquake) (h1 : eq.properties.tsunami ≠ some 1)
    (h2 : (7.5 : ℚ) ≤ eq.properties.mag.getD 0) :
    predict_tsunami_risk model eq = .ok ⟨0.9, .overrideMagnitude⟩ := by
  simp [predict_tsunami_risk, h1, ge_iff_le, h2]

/-- Witness for C2: magnitude 8 with a loaded model that would return
0.2 still yields the 0.9 override. -/
theorem C2_magnitude_override_witness :
    evBigMag.properties.tsunami ≠ some 1 ∧
    (7.5 : ℚ) ≤ evBigMag.properties.mag.getD 0 ∧
    predict_tsunami_risk (some fun _ => .ok 0.2) evBigMag =
      .ok ⟨0.9, .overrideMagnitude⟩ :=
  ⟨by simp [evBigMag], by simp [evBigMag]; norm_num,
    C2_magnitude_override (some fun _ => .ok 0.2) evBigMag
      (by simp [evBigMag]) (by simp [evBigMag]; norm_num)⟩

/-- Claim C3: when no override fires (flag not 1, magnitude below 7.5)
and the model path yields nothing (artifact absent or erroring), the
scorer returns 0.7 for magnitude ≥ 6.5 with depth < 50, else 0.3 for
magnitude ≥ 6.0, else 0.1, always with the heuristic source.  Stated for
events whose coordinate list has a depth entry. -/
theorem C3_heuristic_fallback (model : Option (PredictionData → Except Unit ℚ))
    (eq : Earthquake) (depth : ℚ)
    (h1 : eq.properties.tsunami ≠ some 1)
    (h2 : eq.properties.mag.getD 0 < 7.5)
    (h3 : modelPath model eq = none)
    (h4 : eq.coordinates[2]? = some depth) :
    predict_tsunami_risk model eq =
      .ok ⟨if 6.5 ≤ eq.properties.mag.getD 0 ∧ depth < 50 then 0.7
           else if 6 ≤ eq.properties.mag.getD 0 then 0.3
           else 0.1, .heuristic⟩ := by
  simp only [predict_tsunami_risk, h3, h4, if_neg h1, ge_iff_le,
    if_neg (not_le.mpr h2)]
  split_ifs <;> simp_all

/-- Witness for C3: magnitude 6.8, depth 5, no model: probability 0.7. -/
theorem C3_heuristic_fallback_witness :
    evBigMag.properties.tsunami ≠ some 1 ∧
    modelPath none evBigMag = none ∧
    predict_tsunami_risk none
      { evBigMag with properties := { evBigMag.properties with mag := some 6.8 } } =
      .ok ⟨0.7, .heuristic⟩ := by
  refine ⟨by simp [evBigMag], rfl, ?_⟩
  have h := C3_heuristic_fallback none
    { evBigMag with properties := { evBigMag.properties with mag := some 6.8 } } 5
    (by simp [evBigMag]) (by simp [evBigMag]; norm_num) rfl (by simp [evBigMag])
  rw [h]
  norm_num

/-- Claim C9: with no official flag, magnitude in [6.5, 7.5), no usable
model result, and fewer than 3 coordinates, `predict_tsunami_risk` hits
the unguarded `coordinates[2]` and raises `IndexError`, while
`prepare_prediction_data` on the same event defaults the missing depth
to 0. -/
theorem C9_short_coordinates (model : Option (PredictionData → Except Unit ℚ))
    (eq : Earthquake)
    (h1 : eq.properties.tsunami ≠ some 1)
    (h2 : (6.5 : ℚ) ≤ eq.properties.mag.getD 0)
    (h3 : eq.properties.mag.getD 0 < 7.5)
    (h4 : modelPath model eq = none)
    (h5 : eq.coordinates.length < 3) :
    predict_tsunami_risk model eq = .error .indexError ∧
    (prepare_prediction_data eq).depth = 0 := by
  have hc : eq.coordinates[2]? = none := List.getElem?_eq_none (by omega)
  constructor
  · simp [predict_tsunami_risk, h1, h4, hc, ge_iff_le, h2, not_le.mpr h3]
  · simp [prepare_prediction_data, hc]

/-- Witness for C9: magnitude 6.8 with a two-element coordinate list. -/
theorem C9_short_coordinates_witness :
    evShortCoords.properties.tsunami ≠ some 1 ∧
    (6.5 : ℚ) ≤ evShortCoords.properties.mag.getD 0 ∧
    evShortCoords.properties.mag.getD 0 < 7.5 ∧
    evShortCoords.coordinates.length < 3 ∧
    (predict_tsunami_risk none evShortCoords = .error .indexError ∧
      (prepare_prediction_data evShortCoords).depth = 0) :=
  ⟨by simp [evShortCoords], by simp [evShortCoords]; norm_num,
    by simp [evShortCoords]; norm_num, by simp [evShortCoords],
    C9_short_coordinates none evShortCoords
      (by simp [evShortCoords]) (by simp [evShortCoords]; norm_num)
      (by simp [evShortCoords]; norm_num) rfl (by simp [evShortCoords])⟩

end EmailAlert

namespace EmailAlert

/-- Characterization of the three subject labels of
`format_email_subject` by the probability thresholds of the source. -/
theorem subject_risk_level_spec (p : ℚ) :
    (subject_risk_level p = "HIGH" ↔ 0.7 ≤ p) ∧
    (subject_risk_level p = "MEDIUM" ↔ 0.4 ≤ p ∧ p < 0.7) ∧
    (subject_risk_level p = "LOW" ↔ p < 0.4) := by
  unfold subject_risk_level
  split_ifs with h1 h2 <;> simp_all <;> linarith

/-- A concrete event that reaches the model path, used with a model
returning exactly 0.4. -/
def evModelGate : Earthquake :=
  { id := "ev-model"
    properties :=
      { mag := some 5, place := none, time := some 0, tsunami := none
        sig := none, gap := none, dmin := none, mmi := none }
    coordinates := [100, 10, 5] }

/-- Claim C4: for an event that passes the recency check and scores
without an exception, (1) an alert is formatted and dispatched exactly
when the assessed probability is ≥ 0.4; (2) the subject label is HIGH
for probability ≥ 0.7, MEDIUM for [0.4, 0.7), LOW below 0.4; (3) at
probability exactly 0.4 the event is dispatched and its subject label is
MEDIUM. -/
theorem C4_dispatch_gate_and_label
    (model : Option (PredictionData → Except Unit ℚ)) (now : ℚ)
    (eq : Earthquake) (a : Assessment)
    (hrecent : ¬ now - eq.properties.time.getD 0 / 1000 > 1800)
    (hscore : predict_tsunami_risk model eq = .ok a) :
    ((∃ s, eventStep model now eq = .dispatched s) ↔ 0.4 ≤ a.probability) ∧
    (∀ p : ℚ, (subject_risk_level p = "HIGH" ↔ 0.7 ≤ p) ∧
      (subject_risk_level p = "MEDIUM" ↔ 0.4 ≤ p ∧ p < 0.7) ∧
      (subject_risk_level p = "LOW" ↔ p < 0.4)) ∧
    (a.probability = 0.4 →
      eventStep model now eq = .dispatched (format_email_subject eq 0.4) ∧
      subject_risk_level 0.4 = "MEDIUM") := by
  refine ⟨?_, subject_risk_level_spec, ?_⟩
  · simp only [eventStep, if_neg hrecent, hscore, ge_iff_le]
    split_ifs with hp
    · simp [hp]
    · simp [hp]
  · intro hp
    refine ⟨?_, by norm_num [subject_risk_level]⟩
    simp only [eventStep, if_neg hrecent, hscore, hp, ge_iff_le]
    rw [if_pos le_rfl]

/-- Witness for C4: a model probability of exactly 0.4 is dispatched
with a MEDIUM subject label. -/
theorem C4_dispatch_gate_and_label_witness :
    (¬ (0:ℚ) - evModelGate.properties.time.getD 0 / 1000 > 1800) ∧
    predict_tsunami_risk (some fun _ => .ok 0.4) evModelGate =
      .ok ⟨0.4, .model⟩ ∧
    (eventStep (some fun _ => .ok 0.4) 0 evModelGate =
        .dispatched (format_email_subject evModelGate 0.4) ∧
      subject_risk_level 0.4 = "MEDIUM") := by
  have hrecent : ¬ (0:ℚ) - evModelGate.properties.time.getD 0 / 1000 > 1800 := by
    norm_num [evModelGate]
  have hscore : predict_tsunami_risk (some fun _ => .ok 0.4) evModelGate =
      .ok ⟨0.4, .model⟩ := by
    simp [predict_tsunami_risk, modelPath, evModelGate]
    norm_num
  exact ⟨hrecent, hscore,
    (C4_dispatch_gate_and_label (some fun _ => .ok 0.4) 0 evModelGate
      ⟨0.4, .model⟩ hrecent hscore).2.2 rfl⟩

end EmailAlert

namespace Dashboard

/-- The tier mapping is monotone in the probability. -/
theorem risk_level_of_mono (p q : ℚ) (h : p ≤ q) :
    tierRank (risk_level_of p) ≤ tierRank (risk_level_of q) := by
  unfold risk_level_of
  split_ifs <;> simp [tierRank] <;> linarith

/-- The VeryLow tier is hit exactly below 0.2. -/
theorem risk_level_of_veryLow (p : ℚ) : risk_level_of p = .veryLow ↔ p < 0.2 := by
  unfold risk_level_of
  split_ifs <;> simp_all

/-- The Low tier is hit exactly on [0.2, 0.4). -/
theorem risk_level_of_low (p : ℚ) :
    risk_level_of p = .low ↔ 0.2 ≤ p ∧ p < 0.4 := by
  unfold risk_level_of
  split_ifs <;> simp_all

/-- The Moderate tier is hit exactly on [0.4, 0.6). -/
theorem risk_level_of_moderate (p : ℚ) :
    risk_level_of p = .moderate ↔ 0.4 ≤ p ∧ p < 0.6 := by
  unfold risk_level_of
  split_ifs <;> simp_all <;> intros <;> linarith

/-- The High tier is hit exactly on [0.6, 0.8). -/
theorem risk_level_of_high (p : ℚ) :
    risk_level_of p = .high ↔ 0.6 ≤ p ∧ p < 0.8 := by
  unfold risk_level_of
  split_ifs <;> simp_all <;> intros <;> linarith

/-- The VeryHigh tier is hit exactly on [0.8, ∞), i.e. [0.8, 1] inside [0,1]. -/
theorem risk_level_of_veryHigh (p : ℚ) :
    risk_level_of p = .veryHigh ↔ 0.8 ≤ p := by
  unfold risk_level_of
  split_ifs <;> simp_all <;> try linarith

/-- Interval characterization of the tier mapping: each tier is hit
exactly on its half-open interval (the last one unbounded above, which
restricted to [0,1] is [0.8, 1]). -/
theorem risk_level_of_iff (p : ℚ) :
    (risk_level_of p = .veryLow ↔ p < 0.2) ∧
    (risk_level_of p = .low ↔ 0.2 ≤ p ∧ p < 0.4) ∧
    (risk_level_of p = .moderate ↔ 0.4 ≤ p ∧ p < 0.6) ∧
    (risk_level_of p = .high ↔ 0.6 ≤ p ∧ p < 0.8) ∧
    (risk_level_of p = .veryHigh ↔ 0.8 ≤ p) :=
  ⟨risk_level_of_veryLow p, risk_level_of_low p, risk_level_of_moderate p,
    risk_level_of_high p, risk_level_of_veryHigh p⟩

/-- Claim C5: the probability→tier mapping of the dashboard is monotone
and exhaustive over [0,1] with half-open intervals [0,0.2) VeryLow,
[0.2,0.4) Low, [0.4,0.6) Moderate, [0.6,0.8) High, [0.8,1] VeryHigh, and
each boundary value 0.2, 0.4, 0.6, 0.8 maps to the upper tier of its
interval. -/
theorem C5_tier_mapping :
    (∀ p q : ℚ, p ≤ q → tierRank (risk_level_of p) ≤ tierRank (risk_level_of q)) ∧
    (∀ p : ℚ, (risk_level_of p = .veryLow ↔ p < 0.2) ∧
      (risk_level_of p = .low ↔ 0.2 ≤ p ∧ p < 0.4) ∧
      (risk_level_of p = .moderate ↔ 0.4 ≤ p ∧ p < 0.6) ∧
      (risk_level_of p = .high ↔ 0.6 ≤ p ∧ p < 0.8) ∧
      (risk_level_of p = .veryHigh ↔ 0.8 ≤ p)) ∧
    risk_level_of 0.2 = .low ∧ risk_level_of 0.4 = .moderate ∧
    risk_level_of 0.6 = .high ∧ risk_level_of 0.8 = .veryHigh :=
  ⟨risk_level_of_mono, risk_level_of_iff,
    by norm_num [risk_level_of], by norm_num [risk_level_of],
    by norm_num [risk_level_of], by norm_num [risk_level_of]⟩

/-- Witness for C5: monotonicity applied at 0.3 ≤ 0.9, and the interval
characterization applied at 0.5. -/
theorem C5_tier_mapping_witness :
    tierRank (risk_level_of 0.3) ≤ tierRank (risk_level_of 0.9) ∧
    risk_level_of 0.5 = .moderate :=
  ⟨C5_tier_mapping.1 0.3 0.9 (by norm_num),
    ((C5_tier_mapping.2.1 0.5).2.2.1).mpr (by norm_num)⟩

end Dashboard

namespace EmailAlert

/-- Cycle input holding one recent official-flag event, with an
unreadable recipients file so the default recipient pair is used. -/
def ciOfficial : CycleInput :=
  { fetched := some ⟨some [evOfficial]⟩, recipientsFile := .error () }

/-- Counterexample to claim C6: run two cycles whose feed both contain
the recent event `ev-official`.  The event is dispatched in the first
cycle, yet the second cycle dispatches the same identifier again: the
per-event filter of `process_earthquakes` checks only the 30-minute
recency window and keeps no record of dispatched identifiers (the source
comment says a tracking mechanism "would need to be implemented"). -/
theorem C6_counterexample :
    runLoopDispatches none [(0, ciOfficial), (0, ciOfficial)] =
      ([["ev-official"], ["ev-official"]], false) := by
  simp [runLoopDispatches, process_earthquakes, ciOfficial,
    load_email_recipients, eventStep, predict_tsunami_risk, evOfficial,
    List.filterMap_cons, List.filterMap_nil]
  norm_num

/-- Claim C6 amended: the admission filter enforces only the 30-minute
recency window; dispatched identifiers are not tracked, so repeating a
cycle input redispatches exactly the same identifiers. -/
theorem C6_amended_recency_only (model : Option (PredictionData → Except Unit ℚ)) :
    (∀ (now : ℚ) (eq : Earthquake),
        now - eq.properties.time.getD 0 / 1000 > 1800 →
        eventStep model now eq = .skippedOld) ∧
    (∀ (now : ℚ) (ci : CycleInput) (ds : List String),
        process_earthquakes model now ci = .completed ds →
        runLoopDispatches model [(now, ci), (now, ci)] = ([ds, ds], false)) := by
  constructor
  · intro now eq h
    simp [eventStep, h]
  · intro now ci ds h
    simp [runLoopDispatches, h]

/-- Witness for C6 (amended): a 2000-second-old clock skips the event of
time 0, and the concrete official-event cycle redispatches identically. -/
theorem C6_amended_recency_only_witness :
    ((2000:ℚ) - evOfficial.properties.time.getD 0 / 1000 > 1800 ∧
      eventStep none 2000 evOfficial = .skippedOld) ∧
    (process_earthquakes none 0 ciOfficial = .completed ["ev-official"] ∧
      runLoopDispatches none [(0, ciOfficial), (0, ciOfficial)] =
        ([["ev-official"], ["ev-official"]], false)) := by
  have hage : (2000:ℚ) - evOfficial.properties.time.getD 0 / 1000 > 1800 := by
    norm_num [evOfficial]
  have hproc : process_earthquakes none 0 ciOfficial = .completed ["ev-official"] := by
    simp [process_earthquakes, ciOfficial, load_email_recipients, eventStep,
      predict_tsunami_risk, evOfficial, List.filterMap_cons, List.filterMap_nil]
    norm_num
  exact ⟨⟨hage, (C6_amended_recency_only none).1 2000 evOfficial hage⟩,
    ⟨hproc, (C6_amended_recency_only none).2 0 ciOfficial ["ev-official"] hproc⟩⟩

/-- Fetch environment in which the primary request raises a transport
error while the backup is healthy and would return a valid feed. -/
def envPrimaryTransportError : FetchEnv :=
  { primary := .error (), backup := .ok (200, .ok ⟨some []⟩) }

/-- Counterexample to claim C7: on a transport error of the primary feed
the fetcher returns an empty result at once — the backup is never tried
(second component false) even though it would have succeeded, because
the whole body of `fetch_earthquake_data` sits in one `try` whose
`except` returns `None`. -/
theorem C7_counterexample :
    envPrimaryTransportError.primary = .error () ∧
    envPrimaryTransportError.backup = .ok (200, .ok ⟨some []⟩) ∧
    fetch_earthquake_data envPrimaryTransportError = (none, false) :=
  ⟨rfl, rfl, rfl⟩

/-- Claim C7 amended: the backup feed is tried exactly when the primary
returns a non-success HTTP status; a transport error or malformed
payload of the primary yields an empty result immediately without trying
the backup; when the primary has non-success status the result is the
backup payload on backup success and empty when the backup also fails;
and an empty fetch makes the cycle an immediate no-dispatch return. -/
theorem C7_amended_fetch_fallback (env : FetchEnv) :
    (∀ status payload, env.primary = .ok (status, payload) → status ≠ 200 →
        (fetch_earthquake_data env).2 = true) ∧
    (env.primary = .error () → fetch_earthquake_data env = (none, false)) ∧
    (∀ e, env.primary = .ok (200, .error e) →
        fetch_earthquake_data env = (none, false)) ∧
    (∀ f, env.primary = .ok (200, .ok f) →
        fetch_earthquake_data env = (some f, false)) ∧
    (∀ status payload f, env.primary = .ok (status, payload) → status ≠ 200 →
        env.backup = .ok (200, .ok f) →
        fetch_earthquake_data env = (some f, true)) ∧
    (∀ status payload, env.primary = .ok (status, payload) → status ≠ 200 →
        (∀ f, env.backup ≠ .ok (200, .ok f)) →
        (fetch_earthquake_data env).1 = none) ∧
    (∀ (model : Option (PredictionData → Except Unit ℚ)) (now : ℚ)
        (r : Except Unit (List String)),
        process_earthquakes model now ⟨none, r⟩ = .completed []) := by
  refine ⟨?_, ?_, ?_, ?_, ?_, ?_, ?_⟩
  · intro status payload hp hs
    rcases hb : env.backup with e | ⟨bstatus, bpayload⟩
    · simp [fetch_earthquake_data, hp, hs, hb]
    · rcases bpayload with e | f <;> by_cases h200 : bstatus = 200 <;>
        simp [fetch_earthquake_data, hp, hs, hb, h200]
  · intro hp
    simp [fetch_earthquake_data, hp]
  · intro e hp
    simp [fetch_earthquake_data, hp]
  · intro f hp
    simp [fetch_earthquake_data, hp]
  · intro status payload f hp hs hb
    simp [fetch_earthquake_data, hp, hs, hb]
  · intro status payload hp hs hb
    rcases hbe : env.backup with e | ⟨bstatus, bpayload⟩
    · simp [fetch_earthquake_data, hp, hs, hbe]
    · rcases bpayload with e | f
      · by_cases h200 : bstatus = 200 <;>
          simp [fetch_earthquake_data, hp, hs, hbe, h200]
      · have : bstatus ≠ 200 := by
          intro h
          exact hb f (by rw [hbe, h])
        simp [fetch_earthquake_data, hp, hs, hbe, this]
  · intro model now r
    simp [process_earthquakes]

/-- Fetch environment with HTTP 500 on the primary and a healthy backup. -/
def envPrimary500 : FetchEnv :=
  { primary := .ok (500, .ok ⟨some []⟩), backup := .ok (200, .ok ⟨none⟩) }

/-- Witness for C7 (amended): with HTTP 500 on the primary the backup is
tried and its payload returned; a primary transport error returns empty
untried. -/
theorem C7_amended_fetch_fallback_witness :
    fetch_earthquake_data envPrimary500 = (some ⟨none⟩, true) ∧
    fetch_earthquake_data envPrimaryTransportError = (none, false) :=
  ⟨(C7_amended_fetch_fallback envPrimary500).2.2.2.2.1 500 (.ok ⟨some []⟩) ⟨none⟩
      rfl (by decide) rfl,
    (C7_amended_fetch_fallback envPrimaryTransportError).2.1 rfl⟩

/-- Cycle input whose fetched payload decoded but has no `features`
list: `earthquake_data['features']` raises `KeyError`. -/
def ciNoFeatures : CycleInput :=
  { fetched := some ⟨none⟩, recipientsFile := .error () }

/-- Counterexample to claim C8: of three scheduled cycles the second
fetches a payload without a `features` list; the `KeyError` escapes
`process_earthquakes`, the catch-all in `main` leaves the `while True`
loop, and the third cycle never runs — a failure inside a cycle
terminated the scheduling loop. -/
theorem C8_counterexample :
    runLoopDispatches none [(0, ciOfficial), (0, ciNoFeatures), (0, ciOfficial)] =
      ([["ev-official"]], true) := by
  simp [runLoopDispatches, process_earthquakes, ciOfficial, ciNoFeatures,
    load_email_recipients, eventStep, predict_tsunami_risk, evOfficial,
    List.filterMap_cons, List.filterMap_nil]
  norm_num

/-- A cycle whose fetched payload, when present, carries a `features`
list always returns normally: per-event failures are caught inside the
event loop and fetch failures or missing recipients return early. -/
theorem process_earthquakes_completed (model : Option (PredictionData → Except Unit ℚ))
    (now : ℚ) (ci : CycleInput)
    (h : ∀ f, ci.fetched = some f → f.features ≠ none) :
    ∃ ds, process_earthquakes model now ci = .completed ds := by
  rcases hf : ci.fetched with _ | f
  · exact ⟨[], by simp [process_earthquakes, hf]⟩
  · rcases hff : f.features with _ | events
    · exact absurd hff (h f hf)
    · by_cases hrec : (load_email_recipients ci.recipientsFile).isEmpty
      · exact ⟨[], by simp [process_earthquakes, hf, hff, hrec]⟩
      · exact ⟨events.filterMap (fun eq =>
            match eventStep model now eq with
            | .dispatched _ => some eq.id
            | _ => none), by simp [process_earthquakes, hf, hff, hrec]⟩

/-- Claim C8 amended: per-event failures abort only their event and
handled fetch failures only skip their cycle, so as long as no fetched
payload lacks the `features` list the loop completes every scheduled
cycle; only such an escaping cycle exception (or an external interrupt)
ends the loop. -/
theorem C8_amended_loop_survival (model : Option (PredictionData → Except Unit ℚ))
    (inputs : List (ℚ × CycleInput))
    (h : ∀ p ∈ inputs, ∀ f, p.2.fetched = some f → f.features ≠ none) :
    (runLoopDispatches model inputs).2 = false ∧
    (runLoopDispatches model inputs).1.length = inputs.length := by
  induction inputs with
  | nil => simp [runLoopDispatches]
  | cons head tail ih =>
    obtain ⟨now, ci⟩ := head
    obtain ⟨ds, hds⟩ := process_earthquakes_completed model now ci
      (fun f hf => h (now, ci) (List.mem_cons_self _ _) f hf)
    have ht := ih (fun p hp => h p (List.mem_cons_of_mem _ hp))
    simp [runLoopDispatches, hds, ht.1, ht.2]

/-- Witness for C8 (amended): a single well-formed cycle completes and
the loop is not terminated. -/
theorem C8_amended_loop_survival_witness :
    (runLoopDispatches none [(0, ciOfficial)]).2 = false ∧
    (runLoopDispatches none [(0, ciOfficial)]).1.length = 1 :=
  C8_amended_loop_survival none [(0, ciOfficial)] (by
    intro p hp f hf
    simp only [List.mem_singleton] at hp
    subst hp
    simp only [ciOfficial] at hf
    cases hf
    simp)

/-- Claim C10: every address returned by `load_email_recipients`
contains both an at sign and a dot — on the file-read path because
invalid entries are filtered out, on the fallback path because the fixed
default pair satisfies the check — and the read path returns an
order-preserving sublist of the source list. -/
theorem C10_recipients_valid :
    (∀ (file : Except Unit (List String)) (e : String),
        e ∈ load_email_recipients file → '@' ∈ e.data ∧ '.' ∈ e.data) ∧
    (∀ emails : List String,
        List.Sublist (load_email_recipients (.ok emails)) emails) := by
  constructor
  · intro file e he
    match file with
    | .ok emails =>
      simp only [load_email_recipients] at he
      have hpred := (List.mem_filter.mp he).2
      simp only [Bool.and_eq_true, decide_eq_true_eq] at hpred
      exact hpred
    | .error u =>
      simp only [load_email_recipients, List.mem_cons,
        List.mem_singleton] at he
      rcases he with rfl | rfl | he
      · exact ⟨by decide, by decide⟩
      · exact ⟨by decide, by decide⟩
      · exact absurd he (List.not_mem_nil e)
  · intro emails
    exact List.filter_sublist emails

/-- Witness for C10: 'a@b.c' survives the filter while 'bad' is dropped,
and the result is a sublist of the source. -/
theorem C10_recipients_valid_witness :
    "a@b.c" ∈ load_email_recipients (.ok ["a@b.c", "bad"]) ∧
    ('@' ∈ "a@b.c".data ∧ '.' ∈ "a@b.c".data) ∧
    List.Sublist (load_email_recipients (.ok ["a@b.c", "bad"])) ["a@b.c", "bad"] :=
  ⟨by decide, C10_recipients_valid.1 (.ok ["a@b.c", "bad"]) "a@b.c" (by decide),
    C10_recipients_valid.2 ["a@b.c", "bad"]⟩

end EmailAlert
